import Mathlib

/-!
Shallow embedding of the StreamPortal availability-discovery engine
(app/utils.py, app/series.py, app/movies.py).

Network I/O is modelled by a deterministic transport oracle
`transport : String → TransportResult` mapping each URL to the outcome of
one HTTP GET against it: either a response with a status code, or a raised
transport exception.  All higher components are pure functions of this
oracle, mirroring the Python code line by line.  Functions that fan out
probes are additionally instrumented with the list of URLs they probe
(their probe trace), so that claims about probes never being issued can be
stated about the trace.
-/

/-- Outcome of one HTTP GET at the transport level: a response carrying a
status code, or a raised exception (network error, timeout, ...). -/
inductive TransportResult where
  | resp (status : Nat)
  | exn
deriving DecidableEq, Repr

/-- Embeds `check_url_exists` (app/utils.py lines 10-16): true iff the
request succeeded with status exactly 200; any `requests.RequestException`
yields false. -/
def check_url_exists (r : TransportResult) : Bool :=
  match r with
  | .resp status_code => status_code == 200
  | .exn => false

/-- Embeds `check_url_exists_async` (app/utils.py lines 19-25): true iff
the response status is exactly 200; any exception yields false. -/
def check_url_exists_async (r : TransportResult) : Bool :=
  match r with
  | .resp status => status == 200
  | .exn => false

/-- The series episode URL `https://vixsrc.to/tv/{series_id}/{season}/{ep}`
(app/utils.py lines 54, 59; app/series.py lines 185, 234). -/
def tvUrl (series_id season ep : Nat) : String :=
  "https://vixsrc.to/tv/" ++ toString series_id ++ "/" ++ toString season
    ++ "/" ++ toString ep

/-- The movie URL `https://vixsrc.to/movie/{movie_id}`
(app/movies.py line 127). -/
def movieUrl (movie_id : Nat) : String :=
  "https://vixsrc.to/movie/" ++ toString movie_id

/-- The loop `for i, result in enumerate(results): if result is True:
valid_episodes.append(i + 1)` (app/utils.py lines 65-67), with `start`
tracking the episode number of the head of `results`. -/
def trueIndicesFrom (start : Nat) : List Bool → List Nat
  | [] => []
  | b :: bs =>
      if b then start :: trueIndicesFrom (start + 1) bs
      else trueIndicesFrom (start + 1) bs

/-- Embeds `check_season_episodes_async` (app/utils.py lines 51-68),
instrumented with the list of URLs probed.  First probes episode 1 of the
season; if that returns false the function returns `[]` having probed only
that URL.  Otherwise it gathers probes of episodes `1..max_episodes`,
collects the episode numbers whose probe returned `True`
(`asyncio.gather` with `return_exceptions=True` delivers results in task
order; an exception is not `True` and is skipped) and returns them sorted. -/
def check_season_episodes_async_run (transport : String → TransportResult)
    (series_id season : Nat) (max_episodes : Nat) :
    List Nat × List String :=
  let first_episode_url := tvUrl series_id season 1
  if check_url_exists_async (transport first_episode_url) = false then
    ([], [first_episode_url])
  else
    let episode_urls :=
      (List.range' 1 max_episodes).map (fun ep => tvUrl series_id season ep)
    let results := episode_urls.map
      (fun url => check_url_exists_async (transport url))
    let valid_episodes := trueIndicesFrom 1 results
    (List.insertionSort (fun a b => a ≤ b) valid_episodes,
      first_episode_url :: episode_urls)

/-- The value returned by `check_season_episodes_async`: the sorted list of
valid episode numbers. -/
def check_season_episodes_async (transport : String → TransportResult)
    (series_id season : Nat) (max_episodes : Nat) : List Nat :=
  (check_season_episodes_async_run transport series_id season max_episodes).1

/-- The probe trace of `check_season_episodes_async`: every URL it probes,
in task-creation order. -/
def check_season_episodes_probes (transport : String → TransportResult)
    (series_id season : Nat) (max_episodes : Nat) : List String :=
  (check_season_episodes_async_run transport series_id season max_episodes).2

/-- The aggregate built by `search_series_data_async`: `valid_seasons`,
`valid_episodes` (a season-keyed mapping, kept as an association list in
insertion order, which is ascending season order) and `streaming_urls`
(app/series.py lines 210-212, 221-234). -/
structure SeriesAvailability where
  valid_seasons : List Nat
  valid_episodes : List (Nat × List Nat)
  streaming_urls : List String
deriving DecidableEq, Repr

/-- The empty aggregate `[], {}, []` (app/series.py lines 194, 200). -/
def SeriesAvailability.empty : SeriesAvailability := ⟨[], [], []⟩

/-- Embeds the fan-in loop `for season, episodes in
enumerate(season_results, 1)` of `search_series_data_async`
(app/series.py lines 221-234): an entry that is an exception is skipped;
a non-empty episode list appends its season to `valid_seasons`, records
the mapping entry, and appends one streaming URL per episode.  `season`
is the season number of the head of the remaining results. -/
def aggregate_seasons (series_id : Nat) :
    Nat → List (Except Unit (List Nat)) → SeriesAvailability
  | _, [] => SeriesAvailability.empty
  | season, r :: rest =>
    let acc := aggregate_seasons series_id (season + 1) rest
    match r with
    | .error _ => acc
    | .ok episodes =>
        if episodes.isEmpty then acc
        else
          ⟨season :: acc.valid_seasons,
           (season, episodes) :: acc.valid_episodes,
           episodes.map (fun episode => tvUrl series_id season episode)
             ++ acc.streaming_urls⟩

/-- The slice of the TMDB series payload that `search_series_data_async`
reads: `series["id"]` and `series.get("number_of_seasons", 0)`
(app/series.py lines 185, 202-203). -/
structure SeriesData where
  id : Nat
  number_of_seasons : Nat
deriving DecidableEq, Repr

/-- Embeds `search_series_data_async` (app/series.py lines 184-250),
instrumented with its probe trace.  First checks the series root URL
`.../tv/{id}/1/1`; on false it returns the empty aggregate having probed
only that URL (the surrounding `try` can only fire on an exception of
`check_url_exists_async`, which never raises).  Otherwise it clamps the
season count to 10, gathers `check_season_episodes_async` for seasons
`1..min(declared, 10)` (each task returns normally, so every gathered
entry is a value, not an exception) and folds the results with
`aggregate_seasons`. -/
def search_series_data_async_run (transport : String → TransportResult)
    (series : SeriesData) : SeriesAvailability × List String :=
  let url_to_check := tvUrl series.id 1 1
  if check_url_exists_async (transport url_to_check) = false then
    (SeriesAvailability.empty, [url_to_check])
  else
    let series_id := series.id
    let total_seasons := min series.number_of_seasons 10
    let season_runs := (List.range' 1 total_seasons).map
      (fun season => check_season_episodes_async_run transport series_id season 20)
    let season_results : List (Except Unit (List Nat)) :=
      season_runs.map (fun r => Except.ok r.1)
    (aggregate_seasons series_id 1 season_results,
      url_to_check :: (season_runs.map (fun r => r.2)).flatten)

/-- The value returned by `search_series_data_async`. -/
def search_series_data_async (transport : String → TransportResult)
    (series : SeriesData) : SeriesAvailability :=
  (search_series_data_async_run transport series).1

/-- The probe trace of `search_series_data_async`. -/
def search_series_data_probes (transport : String → TransportResult)
    (series : SeriesData) : List String :=
  (search_series_data_async_run transport series).2

/-- Models `asyncio.gather` under an explicit completion schedule: slot `j`
of the result is filled with task `j`'s value when `j` completes, so the
fan-in sees results in task order however completion times interleave.
`fillSlots` processes the completion events in schedule order. -/
def fillSlots {α : Type} (tasks : List α) :
    List Nat → List (Option α) → List (Option α)
  | [], slots => slots
  | j :: rest, slots => fillSlots tasks rest (slots.set j tasks[j]?)

/-- The gathered result list under a completion schedule: all slots start
empty, completion events fill them, and the non-empty slots are read off
in task order. -/
def gatherSched {α : Type} (tasks : List α) (sched : List Nat) : List α :=
  (fillSlots tasks sched (List.replicate tasks.length none)).filterMap id

/-- Variant of `search_series_data_async` with the season fan-in executed under an
explicit completion schedule of the season tasks (app/series.py lines
214-219): the tasks are created in season order and gathered, so their
results reach the fan-in loop in season order whatever the schedule. -/
def search_series_data_sched (transport : String → TransportResult)
    (series : SeriesData) (sched : List Nat) : SeriesAvailability :=
  let url_to_check := tvUrl series.id 1 1
  if check_url_exists_async (transport url_to_check) = false then
    SeriesAvailability.empty
  else
    let series_id := series.id
    let total_seasons := min series.number_of_seasons 10
    let season_tasks : List (Except Unit (List Nat)) :=
      (List.range' 1 total_seasons).map
        (fun season =>
          Except.ok (check_season_episodes_async transport series_id season 20))
    aggregate_seasons series_id 1 (gatherSched season_tasks sched)

/-- A TMDB catalog response as seen by the details fetchers: an HTTP
response with a status and a parsed body, a raised `aiohttp.ClientError`,
or any other raised exception (app/movies.py lines 98-124,
app/series.py lines 83-107). -/
inductive CatalogResponse (α : Type) where
  | http (status : Nat) (body : α)
  | clientError
  | otherError
deriving DecidableEq, Repr

/-- The application errors the details fetchers raise: `NotFoundError`
with a resource type and id (404), or `ExternalAPIError` with the API name
and the HTTP status code it carries (`response.status` for a non-200
catalog answer, the default 502 for a network or unexpected error)
(app/errors.py lines 98-137). -/
inductive AppError where
  | notFoundError (resource : String) (resource_id : Nat)
  | externalAPIError (api_name : String) (status_code : Nat)
deriving DecidableEq, Repr

/-- The availability slice of the `get_movie_details` result
(app/movies.py lines 149-165): `url` and `is_available`, with the rest of
the TMDB metadata carried through unchanged as `data`. -/
structure MovieDetails (α : Type) where
  data : α
  url : Option String
  is_available : Bool
deriving DecidableEq, Repr

/-- Embeds `get_movie_details` (app/movies.py lines 85-177).  The catalog
fetch: status 404 raises `NotFoundError`, any other non-200 status raises
`ExternalAPIError` with that status, a `ClientError` or unexpected
exception raises `ExternalAPIError` with the default status 502.  The
availability check is the outcome of the `try` block around
`check_url_exists_async` (a value, or an exception which is caught and
degrades to `is_available = False`); `url` is the mirror URL when
available, absent otherwise. -/
def get_movie_details {α : Type} (movie_id : Nat)
    (catalog : CatalogResponse α) (avail : Except Unit Bool) :
    Except AppError (MovieDetails α) :=
  match catalog with
  | .clientError => .error (.externalAPIError "TMDB API" 502)
  | .otherError => .error (.externalAPIError "TMDB API" 502)
  | .http status body =>
    if status = 404 then .error (.notFoundError "Movie" movie_id)
    else if status ≠ 200 then .error (.externalAPIError "TMDB API" status)
    else
      let url_to_check := movieUrl movie_id
      let is_available := match avail with
        | .ok b => b
        | .error _ => false
      .ok { data := body,
            url := if is_available then some url_to_check else none,
            is_available := is_available }

/-- Composition of `get_movie_details` with the availability probe run against
the transport oracle: `check_url_exists_async` never raises, so the `try`
block around it always yields a value. -/
def get_movie_details_online {α : Type} (movie_id : Nat)
    (catalog : CatalogResponse α) (transport : String → TransportResult) :
    Except AppError (MovieDetails α) :=
  get_movie_details movie_id catalog
    (Except.ok (check_url_exists_async (transport (movieUrl movie_id))))

/-- The availability slice of the `get_series_details` result
(app/series.py lines 130-150): `is_available`, `valid_seasons`,
`valid_episodes`, `streaming_urls`, with the remaining TMDB metadata
carried through unchanged as `data`. -/
structure SeriesDetails (α : Type) where
  data : α
  is_available : Bool
  valid_seasons : List Nat
  valid_episodes : List (Nat × List Nat)
  streaming_urls : List String
deriving DecidableEq, Repr

/-- Embeds `get_series_details` (app/series.py lines 72-164).  The catalog
fetch errors exactly as in `get_movie_details` (resource type "Series").
The aggregation step is the outcome of the `try` block around
`search_series_data_async`: an exception is caught and degrades to the
empty aggregate.  `is_available` is `len(valid_seasons) > 0`. -/
def get_series_details {α : Type} (series_id : Nat)
    (catalog : CatalogResponse α) (avail : Except Unit SeriesAvailability) :
    Except AppError (SeriesDetails α) :=
  match catalog with
  | .clientError => .error (.externalAPIError "TMDB API" 502)
  | .otherError => .error (.externalAPIError "TMDB API" 502)
  | .http status body =>
    if status = 404 then .error (.notFoundError "Series" series_id)
    else if status ≠ 200 then .error (.externalAPIError "TMDB API" status)
    else
      let sa := match avail with
        | .ok sa => sa
        | .error _ => SeriesAvailability.empty
      .ok { data := body,
            is_available := decide (0 < sa.valid_seasons.length),
            valid_seasons := sa.valid_seasons,
            valid_episodes := sa.valid_episodes,
            streaming_urls := sa.streaming_urls }

/-- Composition of `get_series_details` with the aggregation run against the
transport oracle on the fetched series payload: `search_series_data_async`
never raises, so the `try` block always yields a value. -/
def get_series_details_online (series_id : Nat)
    (catalog : CatalogResponse SeriesData)
    (transport : String → TransportResult) :
    Except AppError (SeriesDetails SeriesData) :=
  match catalog with
  | .http 200 body =>
      get_series_details series_id catalog
        (Except.ok (search_series_data_async transport body))
  | c => get_series_details series_id c (Except.error ())

/-- The fields of one raw TMDB movie search entry that `search_movies`
reads (app/movies.py lines 61-72, 199-204).  `vote_average` is carried
through unchanged; no arithmetic is ever performed on it. -/
structure RawMovie where
  id : Nat
  original_title : String
  overview : String
  release_date : String
  vote_average : Int
  poster_path : Option String
deriving DecidableEq, Repr

/-- One entry of the `search_movies` result list
(app/movies.py lines 63-72). -/
structure MovieEntry where
  id : Nat
  original_title : String
  overview : String
  release_date : String
  vote_average : Int
  poster : String
deriving DecidableEq, Repr

/-- One page fetch against the TMDB search endpoint: an HTTP response with
a status and a parsed `results` array, or a raised exception. -/
inductive PageFetch (α : Type) where
  | http (status : Nat) (results : List α)
  | exn
deriving DecidableEq, Repr

/-- Embeds `fetch_movie_page` (app/movies.py lines 180-196): a non-200
status or any exception degrades to `{"results": []}`; otherwise the
parsed page body is returned. -/
def fetch_movie_page (page : PageFetch RawMovie) : List RawMovie :=
  match page with
  | .http status results => if status ≠ 200 then [] else results
  | .exn => []

/-- Embeds `display_movie_poster` (app/movies.py lines 199-204). -/
def display_movie_poster (movie : RawMovie) : String :=
  match movie.poster_path with
  | some p => "https://image.tmdb.org/t/p/w500" ++ p
  | none => "No poster found"

/-- One item of the `search_movies` result built from a raw entry
(app/movies.py lines 62-72). -/
def movieEntryOf (movie : RawMovie) : MovieEntry :=
  { id := movie.id,
    original_title := movie.original_title,
    overview := movie.overview,
    release_date := movie.release_date,
    vote_average := movie.vote_average,
    poster := display_movie_poster movie }

/-- Embeds the fan-in loop of `search_movies` (app/movies.py lines 39-72):
pages are processed in ascending page order (the `asyncio.gather` result
list is in task order); a page whose `results` array is empty or missing
is skipped (`page_data.get("results")` is falsy) and contributes nothing;
otherwise its items are appended in order, each enriched with its poster. -/
def collectMovies : List (List RawMovie) → List MovieEntry
  | [] => []
  | results :: rest =>
      (if results.isEmpty then [] else results.map movieEntryOf)
        ++ collectMovies rest

/-- Embeds `search_movies` (app/movies.py lines 15-82): fetches pages
`1..5` concurrently (`for page in range(1, 6)`), each through
`fetch_movie_page` which never raises, and flattens them in page order. -/
def search_movies (fetch : Nat → PageFetch RawMovie) : List MovieEntry :=
  collectMovies
    ((List.range' 1 5).map (fun page => fetch_movie_page (fetch page)))

/-- The fields of one raw TMDB series search entry that `search_series`
reads (app/series.py lines 50-60, 252-263).  `vote_average` is carried
through unchanged; no arithmetic is ever performed on it. -/
structure RawSeries where
  id : Nat
  original_name : String
  first_air_date : Option String
  vote_average : Option Int
  overview : Option String
  poster_path : Option String
deriving DecidableEq, Repr

/-- One entry of the `search_series` result list
(app/series.py lines 53-60). -/
structure SeriesEntry where
  id : Nat
  name : String
  air_date : String
  vote_avg : Int
  overview : String
  poster : String
deriving DecidableEq, Repr

/-- Embeds `fetch_series_page` (app/series.py lines 166-182): a non-200
status or any exception degrades to `{"results": []}`. -/
def fetch_series_page (page : PageFetch RawSeries) : List RawSeries :=
  match page with
  | .http status results => if status ≠ 200 then [] else results
  | .exn => []

/-- Embeds `display_series_poster` (app/series.py lines 252-256). -/
def display_series_poster (series : RawSeries) : String :=
  match series.poster_path with
  | some p => "https://image.tmdb.org/t/p/w500" ++ p
  | none => "https://via.placeholder.com/200x300.png?text=No+Poster"

/-- One item of the `search_series` result built from a raw entry via
`display_series_info` with its defaults (app/series.py lines 50-60,
258-263). -/
def seriesEntryOf (series : RawSeries) : SeriesEntry :=
  { id := series.id,
    name := series.original_name,
    air_date := series.first_air_date.getD "N/A",
    vote_avg := series.vote_average.getD 0,
    overview := series.overview.getD "No overview available.",
    poster := display_series_poster series }

/-- Embeds the fan-in loop of `search_series`
(app/series.py lines 32-60). -/
def collectSeries : List (List RawSeries) → List SeriesEntry
  | [] => []
  | results :: rest =>
      (if results.isEmpty then [] else results.map seriesEntryOf)
        ++ collectSeries rest

/-- Embeds `search_series` (app/series.py lines 11-70): fetches pages
`1..3` concurrently (`for page in range(1, 4)`) and flattens them in page
order. -/
def search_series (fetch : Nat → PageFetch RawSeries) : List SeriesEntry :=
  collectSeries
    ((List.range' 1 3).map (fun page => fetch_series_page (fetch page)))

/-- The seasons among `1..min(declared, 10)` whose episode resolver is
non-empty: the seasons `search_series_data_async` retains. -/
def resolvedSeasons (transport : String → TransportResult)
    (series : SeriesData) : List Nat :=
  (List.range' 1 (min series.number_of_seasons 10)).filter
    (fun season =>
      !(check_season_episodes_async transport series.id season 20).isEmpty)

/-- Fixture transport: every URL answers 200. -/
def tAll : String → TransportResult := fun _ => TransportResult.resp 200

/-- Fixture transport: every URL answers 404. -/
def tNone : String → TransportResult := fun _ => TransportResult.resp 404

/-- Fixture transport: episode 4 of season 2 of series 9 raises a
transport exception; every other URL answers 200. -/
def tExn1 : String → TransportResult := fun v =>
  if v = tvUrl 9 2 4 then TransportResult.exn else TransportResult.resp 200

/-- Fixture transport: episode 4 of season 2 of series 9 answers 404 (the
probe returns false); every other URL answers 200. -/
def tFalse1 : String → TransportResult := fun v =>
  if v = tvUrl 9 2 4 then TransportResult.resp 404 else TransportResult.resp 200

/-- Fixture raw movie entry number `n`. -/
def rm (n : Nat) : RawMovie :=
  { id := n, original_title := "title " ++ toString n, overview := "o",
    release_date := "2024-01-01", vote_average := 7, poster_path := none }

/-- Fixture page outcomes: page 2 raises a transport error, every other
page returns one movie. -/
def fmScenario : Nat → PageFetch RawMovie := fun page =>
  if page = 2 then PageFetch.exn else PageFetch.http 200 [rm page]

/-- Fixture series page outcomes: every page raises. -/
def fsEmpty : Nat → PageFetch RawSeries := fun _ => PageFetch.exn

deriving instance DecidableEq for Except

/-- Fixture expected details record for an all-200 transport on a series
with id 4 declaring one season. -/
def sdr0 : SeriesDetails SeriesData :=
  { data := ⟨4, 1⟩, is_available := true, valid_seasons := [1],
    valid_episodes := [(1, List.range' 1 20)],
    streaming_urls := (List.range' 1 20).map (fun e => tvUrl 4 1 e) }

/-! ## Helper lemmas -/

lemma trueIndicesFrom_map_range' (p : Nat → Bool) :
    ∀ (n s : Nat),
      trueIndicesFrom s ((List.range' s n).map p) = (List.range' s n).filter p := by
  intro n
  induction n with
  | zero => intro s; rfl
  | succ m ih =>
      intro s
      rw [List.range'_succ]
      by_cases h : p s = true
      · simp [trueIndicesFrom, List.filter, h, ih (s + 1)]
      · simp only [Bool.not_eq_true] at h
        simp [trueIndicesFrom, List.filter, h, ih (s + 1)]

lemma sorted_lt_filter_range' (p : Nat → Bool) (s n : Nat) :
    List.Sorted (· < ·) ((List.range' s n).filter p) :=
  List.Pairwise.filter p (List.pairwise_lt_range' s n)

/-- Closed form of the episode resolver: the first-episode gate, then the
filter of `1..max_episodes` by the probe. -/
lemma check_season_episodes_async_eq (transport : String → TransportResult)
    (series_id season max_episodes : Nat) :
    check_season_episodes_async transport series_id season max_episodes =
      if check_url_exists_async (transport (tvUrl series_id season 1)) = false
      then []
      else (List.range' 1 max_episodes).filter
        (fun ep => check_url_exists_async (transport (tvUrl series_id season ep))) := by
  cases hc : check_url_exists_async (transport (tvUrl series_id season 1)) with
  | false => simp [check_season_episodes_async, check_season_episodes_async_run, hc]
  | true =>
      simp only [check_season_episodes_async, check_season_episodes_async_run, hc,
        Bool.true_eq_false, if_false, List.map_map]
      have hmap : ((fun url => check_url_exists_async (transport url))
            ∘ fun ep => tvUrl series_id season ep)
          = fun ep => check_url_exists_async (transport (tvUrl series_id season ep)) := rfl
      rw [hmap, trueIndicesFrom_map_range']
      exact List.Sorted.insertionSort_eq
        ((sorted_lt_filter_range' _ 1 max_episodes).imp le_of_lt)

lemma check_season_episodes_probes_eq (transport : String → TransportResult)
    (series_id season max_episodes : Nat) :
    check_season_episodes_probes transport series_id season max_episodes =
      if check_url_exists_async (transport (tvUrl series_id season 1)) = false
      then [tvUrl series_id season 1]
      else tvUrl series_id season 1 ::
        (List.range' 1 max_episodes).map (fun ep => tvUrl series_id season ep) := by
  unfold check_season_episodes_probes check_season_episodes_async_run
  by_cases h :
      check_url_exists_async (transport (tvUrl series_id season 1)) = false
  · simp [h]
  · simp [h]

lemma check_season_episodes_sorted (transport : String → TransportResult)
    (series_id season max_episodes : Nat) :
    List.Sorted (· < ·)
      (check_season_episodes_async transport series_id season max_episodes) := by
  rw [check_season_episodes_async_eq]
  by_cases h :
      check_url_exists_async (transport (tvUrl series_id season 1)) = false
  · simp [h]
  · simp only [h, if_false, if_neg]
    exact sorted_lt_filter_range' _ 1 max_episodes

/-! ## Claim theorems -/

/-- C4: the probe primitives are total functions of the transport outcome:
they return true iff the response status is exactly 200, and any non-200
status or raised exception yields false (no exception reaches the
caller). -/
theorem check_url_exists_iff_200 (r : TransportResult) :
    (check_url_exists r = true ↔ r = TransportResult.resp 200) ∧
    (check_url_exists_async r = true ↔ r = TransportResult.resp 200) := by
  cases r with
  | resp status => simp [check_url_exists, check_url_exists_async]
  | exn => simp [check_url_exists, check_url_exists_async]

/-- Concrete instance of C4. -/
theorem check_url_exists_iff_200_witness :
    check_url_exists (TransportResult.resp 200) = true ∧
    check_url_exists_async TransportResult.exn = false := by
  constructor
  · exact (check_url_exists_iff_200 (TransportResult.resp 200)).1.mpr rfl
  · have h := (check_url_exists_iff_200 TransportResult.exn).2
    cases hb : check_url_exists_async TransportResult.exn
    · rfl
    · exact absurd (h.mp hb) (by decide)

/-- C1: the episode resolver first probes episode 1 of the season; on
false it returns the empty sequence having probed nothing else; on true
it probes episodes 1..20 and returns exactly the episode numbers whose
probe returned true — an episode belongs to the result iff it is in
range and its probe is true, so sparse gaps are preserved — and the
result is strictly ascending, hence deduplicated. -/
theorem check_season_episodes_async_spec
    (transport : String → TransportResult) (series_id season : Nat) :
    (check_url_exists_async (transport (tvUrl series_id season 1)) = false →
      check_season_episodes_async transport series_id season 20 = [] ∧
      check_season_episodes_probes transport series_id season 20 =
        [tvUrl series_id season 1]) ∧
    (check_url_exists_async (transport (tvUrl series_id season 1)) = true →
      check_season_episodes_probes transport series_id season 20 =
        tvUrl series_id season 1 ::
          (List.range' 1 20).map (fun ep => tvUrl series_id season ep) ∧
      (∀ ep, ep ∈ check_season_episodes_async transport series_id season 20 ↔
        1 ≤ ep ∧ ep ≤ 20 ∧
          check_url_exists_async (transport (tvUrl series_id season ep)) = true)) ∧
    List.Sorted (· < ·)
      (check_season_episodes_async transport series_id season 20) := by
  refine ⟨fun h => ?_, fun h => ?_, check_season_episodes_sorted _ _ _ _⟩
  · rw [check_season_episodes_async_eq, check_season_episodes_probes_eq]
    simp [h]
  · have hne : ¬ (check_url_exists_async
        (transport (tvUrl series_id season 1)) = false) := by simp [h]
    constructor
    · rw [check_season_episodes_probes_eq]
      simp [hne]
    · intro ep
      rw [check_season_episodes_async_eq, if_neg hne, List.mem_filter,
        List.mem_range'_1]
      constructor
      · rintro ⟨⟨h1, h2⟩, h3⟩
        exact ⟨h1, by omega, h3⟩
      · rintro ⟨h1, h2, h3⟩
        exact ⟨⟨h1, by omega⟩, h3⟩

/-- Concrete instance of C1: an all-404 transport fails the episode-1 gate
and yields no episodes; an all-200 transport passes it and episode 5 is in
the result. -/
theorem check_season_episodes_async_spec_witness :
    check_season_episodes_async tNone 3 1 20 = [] ∧
    5 ∈ check_season_episodes_async tAll 3 1 20 := by
  refine ⟨((check_season_episodes_async_spec tNone 3 1).1 (by decide)).1, ?_⟩
  exact (((check_season_episodes_async_spec tAll 3 1).2.1 (by decide)).2 5).mpr
    (by decide)

lemma check_season_episodes_run_congr (t t2 : String → TransportResult)
    (h : ∀ v, check_url_exists_async (t v) = check_url_exists_async (t2 v))
    (series_id season max_episodes : Nat) :
    check_season_episodes_async_run t series_id season max_episodes =
      check_season_episodes_async_run t2 series_id season max_episodes := by
  unfold check_season_episodes_async_run
  simp only [h]

/-- C3: if one episode probe raises a transport exception while all other
probe outcomes are unchanged, the resolver returns exactly what it returns
when that probe instead answers false; the exception never surfaces as a
resolver-level failure (the resolver still returns a plain list). -/
theorem resolver_exception_equiv_false (t t2 : String → TransportResult)
    (u : String) (series_id season max_episodes : Nat)
    (hexn : t u = TransportResult.exn)
    (hfalse : check_url_exists_async (t2 u) = false)
    (hagree : ∀ v, v ≠ u → t v = t2 v) :
    check_season_episodes_async t series_id season max_episodes =
      check_season_episodes_async t2 series_id season max_episodes := by
  have h : ∀ v, check_url_exists_async (t v) = check_url_exists_async (t2 v) := by
    intro v
    by_cases hv : v = u
    · subst hv
      rw [hexn, hfalse]
      rfl
    · rw [hagree v hv]
  unfold check_season_episodes_async
  rw [check_season_episodes_run_congr t t2 h]

/-- Concrete instance of C3: with a transport where the probe of episode 4
of season 2 of series 9 raises, the resolver agrees with the transport
where that probe answers 404. -/
theorem resolver_exception_equiv_false_witness :
    check_season_episodes_async tExn1 9 2 20 =
      check_season_episodes_async tFalse1 9 2 20 := by
  refine resolver_exception_equiv_false tExn1 tFalse1 (tvUrl 9 2 4) 9 2 20
    ?_ ?_ ?_
  · simp [tExn1]
  · simp [tFalse1, check_url_exists_async]
  · intro v hv
    simp [tExn1, tFalse1, hv]

lemma aggregate_seasons_ok_map (series_id : Nat) (f : Nat → List Nat) :
    ∀ (m k : Nat),
      aggregate_seasons series_id k
          ((List.range' k m).map (fun s => Except.ok (f s))) =
        { valid_seasons := (List.range' k m).filter (fun s => !(f s).isEmpty),
          valid_episodes :=
            ((List.range' k m).filter (fun s => !(f s).isEmpty)).map
              (fun s => (s, f s)),
          streaming_urls :=
            (((List.range' k m).filter (fun s => !(f s).isEmpty)).map
              (fun s => (f s).map (fun e => tvUrl series_id s e))).flatten } := by
  intro m
  induction m with
  | zero => intro k; rfl
  | succ n ih =>
      intro k
      rw [List.range'_succ]
      by_cases h : (f k).isEmpty
      · simp [aggregate_seasons, List.filter_cons, h, ih (k + 1)]
      · simp only [Bool.not_eq_true] at h
        simp [aggregate_seasons, List.filter_cons, h, ih (k + 1)]

/-- Closed form of `search_series_data_async` past the root gate. -/
lemma search_series_data_async_eq (transport : String → TransportResult)
    (series : SeriesData)
    (hroot : check_url_exists_async (transport (tvUrl series.id 1 1)) = true) :
    search_series_data_async transport series =
      { valid_seasons := resolvedSeasons transport series,
        valid_episodes := (resolvedSeasons transport series).map
          (fun s => (s, check_season_episodes_async transport series.id s 20)),
        streaming_urls := ((resolvedSeasons transport series).map
          (fun s => (check_season_episodes_async transport series.id s 20).map
            (fun e => tvUrl series.id s e))).flatten } := by
  unfold search_series_data_async search_series_data_async_run
  simp only [hroot, Bool.true_eq_false, if_false, List.map_map]
  have hmap : ((fun r => Except.ok r.1) ∘
        fun season =>
          check_season_episodes_async_run transport series.id season 20)
      = fun season => (Except.ok
          (check_season_episodes_async transport series.id season 20) :
            Except Unit (List Nat)) := rfl
  rw [hmap, aggregate_seasons_ok_map]
  rfl

/-- C2: if the root probe of `.../tv/{id}/1/1` fails, the aggregator
returns the entirely empty result having probed nothing else; if it
succeeds, `valid_seasons` is exactly the ascending list of seasons with at
least one resolved episode, `valid_episodes` pairs those seasons with
their resolver results, and `streaming_urls` is the season-major flatten
of the per-season episode URLs (episodes ascending within each season by
C1). -/
theorem search_series_data_async_spec (transport : String → TransportResult)
    (series : SeriesData) :
    (check_url_exists_async (transport (tvUrl series.id 1 1)) = false →
      search_series_data_async transport series = SeriesAvailability.empty ∧
      search_series_data_probes transport series = [tvUrl series.id 1 1]) ∧
    (check_url_exists_async (transport (tvUrl series.id 1 1)) = true →
      (search_series_data_async transport series).valid_seasons =
        resolvedSeasons transport series ∧
      (search_series_data_async transport series).valid_episodes =
        (resolvedSeasons transport series).map
          (fun s => (s, check_season_episodes_async transport series.id s 20)) ∧
      (search_series_data_async transport series).streaming_urls =
        ((resolvedSeasons transport series).map
          (fun s => (check_season_episodes_async transport series.id s 20).map
            (fun e => tvUrl series.id s e))).flatten ∧
      List.Sorted (· < ·)
        (search_series_data_async transport series).valid_seasons) := by
  constructor
  · intro h
    constructor
    · unfold search_series_data_async search_series_data_async_run
      simp [h]
    · unfold search_series_data_probes search_series_data_async_run
      simp [h]
  · intro h
    rw [search_series_data_async_eq transport series h]
    exact ⟨rfl, rfl, rfl, sorted_lt_filter_range' _ 1 _⟩

/-- Concrete instance of C2: with an all-404 transport the aggregator is
empty and probes only the root; with an all-200 transport on a series
declaring 2 seasons, both seasons are valid. -/
theorem search_series_data_async_spec_witness :
    search_series_data_async tNone ⟨4, 2⟩ = SeriesAvailability.empty ∧
    (search_series_data_async tAll ⟨4, 2⟩).valid_seasons =
      resolvedSeasons tAll ⟨4, 2⟩ := by
  exact ⟨((search_series_data_async_spec tNone ⟨4, 2⟩).1 (by decide)).1,
    ((search_series_data_async_spec tAll ⟨4, 2⟩).2 (by decide)).1⟩

lemma search_series_data_probes_eq (transport : String → TransportResult)
    (series : SeriesData) :
    search_series_data_probes transport series =
      if check_url_exists_async (transport (tvUrl series.id 1 1)) = false
      then [tvUrl series.id 1 1]
      else tvUrl series.id 1 1 ::
        ((List.range' 1 (min series.number_of_seasons 10)).map
          (fun s => check_season_episodes_probes transport series.id s 20)).flatten := by
  cases hc : check_url_exists_async (transport (tvUrl series.id 1 1)) with
  | false => simp [search_series_data_probes, search_series_data_async_run, hc]
  | true =>
      simp only [search_series_data_probes, search_series_data_async_run, hc,
        Bool.true_eq_false, if_false, List.map_map]
      rfl

/-- C5: every URL the availability engine probes for a series is either
the fixed root check `.../tv/{id}/1/1` or an episode URL
`.../tv/{id}/{s}/{e}` with `1 ≤ s ≤ min(declared, 10)` and
`1 ≤ e ≤ 20`: the declared season count is clamped to 10 before fan-out
and no probe beyond these bounds is ever issued. -/
theorem search_series_probe_bounds (transport : String → TransportResult)
    (series : SeriesData) :
    ∀ u ∈ search_series_data_probes transport series,
      u = tvUrl series.id 1 1 ∨
      ∃ s e, 1 ≤ s ∧ s ≤ min series.number_of_seasons 10 ∧
        1 ≤ e ∧ e ≤ 20 ∧ u = tvUrl series.id s e := by
  intro u hu
  rw [search_series_data_probes_eq] at hu
  by_cases hroot :
      check_url_exists_async (transport (tvUrl series.id 1 1)) = false
  · rw [if_pos hroot] at hu
    exact Or.inl (List.mem_singleton.mp hu)
  · rw [if_neg hroot] at hu
    rcases List.mem_cons.mp hu with h | h
    · exact Or.inl h
    · right
      rw [List.mem_flatten] at h
      obtain ⟨l, hl, hul⟩ := h
      rw [List.mem_map] at hl
      obtain ⟨s, hs, rfl⟩ := hl
      rw [List.mem_range'_1] at hs
      rw [check_season_episodes_probes_eq] at hul
      by_cases hgate : check_url_exists_async
          (transport (tvUrl series.id s 1)) = false
      · rw [if_pos hgate] at hul
        exact ⟨s, 1, hs.1, by omega, le_refl 1, by omega,
          List.mem_singleton.mp hul⟩
      · rw [if_neg hgate] at hul
        rcases List.mem_cons.mp hul with h1 | h2
        · exact ⟨s, 1, hs.1, by omega, le_refl 1, by omega, h1⟩
        · rw [List.mem_map] at h2
          obtain ⟨e, he, rfl⟩ := h2
          rw [List.mem_range'_1] at he
          exact ⟨s, e, hs.1, by omega, he.1, by omega, rfl⟩

/-- Concrete instance of C5: the probe of season 2 episode 2 issued for a
series declaring 2 seasons is within bounds. -/
theorem search_series_probe_bounds_witness :
    tvUrl 4 2 2 = tvUrl 4 1 1 ∨
    ∃ s e, 1 ≤ s ∧ s ≤ min 2 10 ∧ 1 ≤ e ∧ e ≤ 20 ∧ tvUrl 4 2 2 = tvUrl 4 s e :=
  search_series_probe_bounds tAll ⟨4, 2⟩ (tvUrl 4 2 2) (by decide)

lemma fillSlots_length {α : Type} (tasks : List α) :
    ∀ (sched : List Nat) (slots : List (Option α)),
      (fillSlots tasks sched slots).length = slots.length := by
  intro sched
  induction sched with
  | nil => intro slots; rfl
  | cons j rest ih =>
      intro slots
      rw [fillSlots, ih, List.length_set]

lemma fillSlots_getElem?_not_mem {α : Type} (tasks : List α) :
    ∀ (sched : List Nat) (slots : List (Option α)) (i : Nat), i ∉ sched →
      (fillSlots tasks sched slots)[i]? = slots[i]? := by
  intro sched
  induction sched with
  | nil => intro slots i _; rfl
  | cons j rest ih =>
      intro slots i hi
      rw [List.mem_cons, not_or] at hi
      rw [fillSlots, ih _ i hi.2, List.getElem?_set_ne (fun h => hi.1 h.symm)]

lemma fillSlots_getElem?_mem {α : Type} (tasks : List α) :
    ∀ (sched : List Nat) (slots : List (Option α)) (i : Nat), i ∈ sched →
      i < slots.length →
      (fillSlots tasks sched slots)[i]? = some tasks[i]? := by
  intro sched
  induction sched with
  | nil => intro slots i hi _; exact absurd hi (List.not_mem_nil i)
  | cons j rest ih =>
      intro slots i hi hlen
      rw [fillSlots]
      by_cases hr : i ∈ rest
      · exact ih _ i hr (by rw [List.length_set]; exact hlen)
      · have hij : i = j := by
          rcases List.mem_cons.mp hi with h | h
          · exact h
          · exact absurd h hr
        subst hij
        rw [fillSlots_getElem?_not_mem tasks rest _ i hr,
          List.getElem?_set_self hlen]

/-- Gathering reorders nothing: whenever the completion schedule
covers every task, the gathered results are the task outcomes in task
order. -/
lemma gatherSched_eq {α : Type} (tasks : List α) (sched : List Nat)
    (h : ∀ i, i < tasks.length → i ∈ sched) :
    gatherSched tasks sched = tasks := by
  have hfill : fillSlots tasks sched (List.replicate tasks.length none)
      = tasks.map some := by
    apply List.ext_getElem?
    intro i
    by_cases hi : i < tasks.length
    · rw [fillSlots_getElem?_mem tasks sched _ i (h i hi)
        (by rw [List.length_replicate]; exact hi)]
      rw [List.getElem?_map, List.getElem?_eq_getElem hi]
      rfl
    · have h1 : (fillSlots tasks sched (List.replicate tasks.length none)).length ≤ i := by
        rw [fillSlots_length, List.length_replicate]
        omega
      have h2 : (tasks.map some).length ≤ i := by
        rw [List.length_map]
        omega
      rw [List.getElem?_eq_none h1, List.getElem?_eq_none h2]
  rw [gatherSched, hfill, List.filterMap_map]
  have : (id ∘ (some : α → Option α)) = some := rfl
  rw [this, List.filterMap_some]

/-- The scheduled aggregator equals the deterministic one whenever the
schedule covers every season task. -/
lemma search_series_data_sched_eq (transport : String → TransportResult)
    (series : SeriesData) (sched : List Nat)
    (h : ∀ i, i < min series.number_of_seasons 10 → i ∈ sched) :
    search_series_data_sched transport series sched =
      search_series_data_async transport series := by
  unfold search_series_data_sched search_series_data_async
    search_series_data_async_run
  by_cases hroot :
      check_url_exists_async (transport (tvUrl series.id 1 1)) = false
  · rw [if_pos hroot, if_pos hroot]
  · rw [if_neg hroot, if_neg hroot]
    dsimp only
    have hcov : ∀ i, i < (List.map
        (fun season => (Except.ok
          (check_season_episodes_async transport series.id season 20) :
            Except Unit (List Nat)))
        (List.range' 1 (min series.number_of_seasons 10))).length →
        i ∈ sched := by
      intro i hi
      rw [List.length_map, List.length_range'] at hi
      exact h i hi
    rw [gatherSched_eq _ sched hcov, List.map_map]
    rfl

/-- C6: the season aggregator is deterministic and idempotent with
respect to probe outcomes: under identical transport outcomes, any two
completion schedules of the concurrent season tasks yield the same
`SeriesAvailability`, equal to the canonical task-order result. -/
theorem search_series_data_sched_deterministic
    (transport : String → TransportResult) (series : SeriesData)
    (sched1 sched2 : List Nat)
    (h1 : sched1.Perm (List.range (min series.number_of_seasons 10)))
    (h2 : sched2.Perm (List.range (min series.number_of_seasons 10))) :
    search_series_data_sched transport series sched1 =
      search_series_data_sched transport series sched2 ∧
    search_series_data_sched transport series sched1 =
      search_series_data_async transport series := by
  have e1 := search_series_data_sched_eq transport series sched1
    (fun i hi => h1.mem_iff.mpr (List.mem_range.mpr hi))
  have e2 := search_series_data_sched_eq transport series sched2
    (fun i hi => h2.mem_iff.mpr (List.mem_range.mpr hi))
  exact ⟨e1.trans e2.symm, e1⟩

/-- Concrete instance of C6: for a 2-season series the two completion
orders of the season tasks give identical results. -/
theorem search_series_data_sched_deterministic_witness :
    search_series_data_sched tAll ⟨4, 2⟩ [1, 0] =
      search_series_data_sched tAll ⟨4, 2⟩ [0, 1] ∧
    search_series_data_sched tAll ⟨4, 2⟩ [1, 0] =
      search_series_data_async tAll ⟨4, 2⟩ :=
  search_series_data_sched_deterministic tAll ⟨4, 2⟩ [1, 0] [0, 1]
    (by decide) (by decide)

/-- C7: errors are partitioned by path.  The metadata fetch of
`get_movie_details` / `get_series_details` raises `NotFoundError` exactly
on a 404 catalog answer and `ExternalAPIError` carrying the offending
status on any other non-200 answer, and these propagate; whereas a
failure inside the availability engine is swallowed: the details call
still succeeds, with a negative availability result. -/
theorem details_error_partition (α : Type) (movie_id series_id : Nat)
    (mbody sbody : α) (avm : Except Unit Bool)
    (avs : Except Unit SeriesAvailability) (status : Nat) :
    (get_movie_details movie_id (CatalogResponse.http 404 mbody) avm =
      Except.error (AppError.notFoundError "Movie" movie_id)) ∧
    (status ≠ 404 → status ≠ 200 →
      get_movie_details movie_id (CatalogResponse.http status mbody) avm =
        Except.error (AppError.externalAPIError "TMDB API" status)) ∧
    (∀ e, get_movie_details movie_id (CatalogResponse.http 200 mbody)
        (Except.error e) =
      Except.ok { data := mbody, url := none, is_available := false }) ∧
    (get_series_details series_id (CatalogResponse.http 404 sbody) avs =
      Except.error (AppError.notFoundError "Series" series_id)) ∧
    (status ≠ 404 → status ≠ 200 →
      get_series_details series_id (CatalogResponse.http status sbody) avs =
        Except.error (AppError.externalAPIError "TMDB API" status)) ∧
    (∀ e, get_series_details series_id (CatalogResponse.http 200 sbody)
        (Except.error e) =
      Except.ok { data := sbody, is_available := false, valid_seasons := [],
                  valid_episodes := [], streaming_urls := [] }) := by
  refine ⟨rfl, fun h4 h2 => ?_, fun e => rfl, rfl, fun h4 h2 => ?_, fun e => rfl⟩
  · unfold get_movie_details
    dsimp only
    rw [if_neg h4, if_pos h2]
  · unfold get_series_details
    dsimp only
    rw [if_neg h4, if_pos h2]

/-- Concrete instance of C7: a 500 catalog answer propagates as
`ExternalAPIError 500`, while an availability-engine failure on a 200
catalog answer degrades to a successful result with negative
availability. -/
theorem details_error_partition_witness :
    (get_movie_details 5 (CatalogResponse.http 500 (0 : Nat)) (Except.ok true) =
      Except.error (AppError.externalAPIError "TMDB API" 500)) ∧
    (get_series_details 6 (CatalogResponse.http 200 (0 : Nat))
        (Except.error ()) =
      Except.ok { data := 0, is_available := false, valid_seasons := [],
                  valid_episodes := [], streaming_urls := [] }) :=
  ⟨(details_error_partition Nat 5 6 0 0 (Except.ok true)
      (Except.error ()) 500).2.1 (by decide) (by decide),
   (details_error_partition Nat 5 6 0 0 (Except.ok true)
      (Except.error ()) 500).2.2.2.2.2 ()⟩

/-- C8: the movie availability of `get_movie_details` is a function of
the single probe of `.../movie/{movie_id}`: probe true gives
`is_available = true` with `url` set to the mirror URL, probe false gives
`is_available = false` with `url` absent. -/
theorem movie_availability_spec (α : Type) (movie_id : Nat) (body : α)
    (transport : String → TransportResult) :
    (check_url_exists_async (transport (movieUrl movie_id)) = true →
      get_movie_details_online movie_id (CatalogResponse.http 200 body)
          transport =
        Except.ok { data := body, url := some (movieUrl movie_id),
                    is_available := true }) ∧
    (check_url_exists_async (transport (movieUrl movie_id)) = false →
      get_movie_details_online movie_id (CatalogResponse.http 200 body)
          transport =
        Except.ok { data := body, url := none, is_available := false }) := by
  constructor
  · intro h
    unfold get_movie_details_online get_movie_details
    dsimp only
    rw [if_neg (by decide : ¬((200 : Nat) = 404)),
      if_neg (by decide : ¬((200 : Nat) ≠ 200))]
    simp [h]
  · intro h
    unfold get_movie_details_online get_movie_details
    dsimp only
    rw [if_neg (by decide : ¬((200 : Nat) = 404)),
      if_neg (by decide : ¬((200 : Nat) ≠ 200))]
    simp [h]

/-- Concrete instance of C8: all-200 transport gives an available movie
with its URL, all-404 transport gives unavailable with no URL. -/
theorem movie_availability_spec_witness :
    get_movie_details_online 5 (CatalogResponse.http 200 (0 : Nat)) tAll =
      Except.ok { data := 0, url := some (movieUrl 5), is_available := true } ∧
    get_movie_details_online 5 (CatalogResponse.http 200 (0 : Nat)) tNone =
      Except.ok { data := 0, url := none, is_available := false } :=
  ⟨(movie_availability_spec Nat 5 0 tAll).1 (by decide),
   (movie_availability_spec Nat 5 0 tNone).2 (by decide)⟩

lemma collectMovies_eq (L : List (List RawMovie)) :
    collectMovies L = (L.map (fun rs => rs.map movieEntryOf)).flatten := by
  induction L with
  | nil => rfl
  | cons rs rest ih =>
      by_cases h : rs.isEmpty = true
      · rw [List.isEmpty_iff] at h
        subst h
        simp [collectMovies, ih]
      · simp [collectMovies, h, ih]

lemma collectSeries_eq (L : List (List RawSeries)) :
    collectSeries L = (L.map (fun rs => rs.map seriesEntryOf)).flatten := by
  induction L with
  | nil => rfl
  | cons rs rest ih =>
      by_cases h : rs.isEmpty = true
      · rw [List.isEmpty_iff] at h
        subst h
        simp [collectSeries, ih]
      · simp [collectSeries, h, ih]

/-- C9: the search paginators let no page-fetch exception escape: a page
whose fetch raises or answers a non-200 status contributes zero items,
and the result is the flattening of the pages' (possibly degraded-empty)
item lists in ascending page order, each item enriched in place with its
poster. -/
theorem search_paginator_spec (fm : Nat → PageFetch RawMovie)
    (fs : Nat → PageFetch RawSeries) :
    (search_movies fm = ((List.range' 1 5).map
      (fun page => (fetch_movie_page (fm page)).map movieEntryOf)).flatten) ∧
    (search_series fs = ((List.range' 1 3).map
      (fun page => (fetch_series_page (fs page)).map seriesEntryOf)).flatten) ∧
    (∀ status results, status ≠ 200 →
      fetch_movie_page (PageFetch.http status results) = []) ∧
    fetch_movie_page PageFetch.exn = [] ∧
    (∀ status results, status ≠ 200 →
      fetch_series_page (PageFetch.http status results) = []) ∧
    fetch_series_page PageFetch.exn = [] := by
  refine ⟨?_, ?_, fun status results h => ?_, rfl,
    fun status results h => ?_, rfl⟩
  · rw [search_movies, collectMovies_eq, List.map_map]
    rfl
  · rw [search_series, collectSeries_eq, List.map_map]
    rfl
  · unfold fetch_movie_page
    dsimp only
    rw [if_pos h]
  · unfold fetch_series_page
    dsimp only
    rw [if_pos h]

/-- Concrete instance of C9: when page 2 of 5 raises, the result is the
items of pages 1, 3, 4, 5 in that order, and a 503 page contributes zero
items. -/
theorem search_paginator_spec_witness :
    search_movies fmScenario =
      [movieEntryOf (rm 1), movieEntryOf (rm 3), movieEntryOf (rm 4),
        movieEntryOf (rm 5)] ∧
    fetch_movie_page (PageFetch.http 503 [rm 1]) = [] := by
  constructor
  · rw [(search_paginator_spec fmScenario fsEmpty).1]
    rfl
  · exact (search_paginator_spec fmScenario fsEmpty).2.2.1 503 [rm 1]
      (by decide)

lemma search_series_data_async_empty (transport : String → TransportResult)
    (series : SeriesData)
    (hroot : check_url_exists_async (transport (tvUrl series.id 1 1)) = false) :
    search_series_data_async transport series = SeriesAvailability.empty := by
  unfold search_series_data_async search_series_data_async_run
  simp [hroot]

lemma search_series_data_async_invariants
    (transport : String → TransportResult) (d : SeriesData) :
    (search_series_data_async transport d).valid_seasons =
      (search_series_data_async transport d).valid_episodes.map Prod.fst ∧
    List.Sorted (· < ·) (search_series_data_async transport d).valid_seasons ∧
    (∀ p ∈ (search_series_data_async transport d).valid_episodes, p.2 ≠ []) ∧
    (search_series_data_async transport d).streaming_urls =
      ((search_series_data_async transport d).valid_episodes.map
        (fun p => p.2.map (fun e => tvUrl d.id p.1 e))).flatten ∧
    (search_series_data_async transport d).streaming_urls.length =
      ((search_series_data_async transport d).valid_episodes.map
        (fun p => p.2.length)).sum := by
  by_cases hroot :
      check_url_exists_async (transport (tvUrl d.id 1 1)) = false
  · rw [search_series_data_async_empty transport d hroot]
    refine ⟨rfl, List.sorted_nil, fun p hp => absurd hp (List.not_mem_nil p),
      rfl, rfl⟩
  · rw [Bool.not_eq_false] at hroot
    rw [search_series_data_async_eq transport d hroot]
    dsimp only
    refine ⟨?_, sorted_lt_filter_range' _ 1 _, ?_, ?_, ?_⟩
    · rw [List.map_map]
      have : (Prod.fst ∘ fun s =>
          (s, check_season_episodes_async transport d.id s 20)) = id := rfl
      rw [this, List.map_id]
    · intro p hp
      rw [List.mem_map] at hp
      obtain ⟨s, hs, rfl⟩ := hp
      unfold resolvedSeasons at hs
      rw [List.mem_filter] at hs
      have := hs.2
      rw [Bool.not_eq_true', List.isEmpty_eq_false] at this
      exact this
    · rw [List.map_map]
      rfl
    · rw [List.length_flatten, List.map_map, List.map_map]
      have : (List.length ∘ fun s =>
            (check_season_episodes_async transport d.id s 20).map
              (fun e => tvUrl d.id s e))
          = ((fun p => p.2.length) ∘ fun s =>
            (s, check_season_episodes_async transport d.id s 20)) := by
        funext s
        simp [List.length_map]
      rw [this]

/-- C10: every successful `get_series_details` result is internally
consistent: `is_available` iff some valid season exists, `valid_seasons`
is the ascending list of keys of `valid_episodes`, every per-season
episode list is non-empty, and `streaming_urls` is exactly the
season-major flatten of one URL `.../tv/{id}/{season}/{episode}` per
(season, episode) pair, so its length is the total episode count. -/
theorem series_details_invariants (series_id : Nat) (body : SeriesData)
    (transport : String → TransportResult) :
    ∀ r, get_series_details_online series_id (CatalogResponse.http 200 body)
        transport = Except.ok r →
      (r.is_available = true ↔ r.valid_seasons ≠ []) ∧
      r.valid_seasons = r.valid_episodes.map Prod.fst ∧
      List.Sorted (· < ·) r.valid_seasons ∧
      (∀ p ∈ r.valid_episodes, p.2 ≠ []) ∧
      r.streaming_urls = (r.valid_episodes.map
        (fun p => p.2.map (fun e => tvUrl body.id p.1 e))).flatten ∧
      r.streaming_urls.length =
        (r.valid_episodes.map (fun p => p.2.length)).sum := by
  intro r hr
  unfold get_series_details_online get_series_details at hr
  dsimp only at hr
  rw [if_neg (by decide : ¬((200 : Nat) = 404)),
    if_neg (by decide : ¬((200 : Nat) ≠ 200))] at hr
  rw [Except.ok.injEq] at hr
  subst hr
  dsimp only
  obtain ⟨h1, h2, h3, h4, h5⟩ :=
    search_series_data_async_invariants transport body
  refine ⟨?_, h1, h2, h3, h4, h5⟩
  rw [decide_eq_true_iff, List.length_pos]

/-- Concrete instance of C10: the details record computed for an all-200
transport on a one-season series satisfies the internal-consistency
invariants. -/
theorem series_details_invariants_witness :
    (sdr0.is_available = true ↔ sdr0.valid_seasons ≠ []) ∧
    sdr0.streaming_urls.length =
      (sdr0.valid_episodes.map (fun p => p.2.length)).sum := by
  have h := series_details_invariants 4 ⟨4, 1⟩ tAll sdr0 (by decide)
  exact ⟨h.1, h.2.2.2.2.2⟩
